import Mathlib

/-
Shallow embedding of `src/main.py` of codeintel-csrf-token-analyzer.

The program is a regex-based scanner:
  * `is_token_generation_present` / `is_token_validation_present` try a fixed
    list of regular expressions in order (`re.search` over the whole file
    text) and return `true` on the first match (main.py lines 28-78);
  * `analyze_file` reads a file and applies both predicates, treating a read
    failure as `(false, false)` (lines 81-108);
  * `analyze_directory` walks a directory, keeps `.py` files, skips files
    matched by the exclusion check, and ORs the per-file results
    (lines 111-143);
  * `main` validates the two name arguments against
    `^[a-zA-Z_][a-zA-Z0-9_]*$` and dispatches on file/dir/neither
    (lines 146-179).

Regular expressions are embedded as an executable Brzozowski-derivative
matcher over `List Char`; the concrete pattern lists are transcribed from the
pattern strings in the source.  Python `re` semantics modelled: `re.search`
matches the pattern at any start position, `.` matches any character except
a newline, `\s` matches Python's whitespace set, classes are case-sensitive
and ASCII-ranged exactly as written in the source patterns.  File-system
effects (os.walk, open/read, os.path.isfile/isdir) are modelled by an
explicit `FS` record; `os.path.join` / `os.path.normpath` are transcribed
from CPython's posixpath.  Logging is not modelled (it does not affect
results or exit codes).
-/

-- ### Regular-expression engine (models Python `re.search` on the

-- constructs used by the source's patterns)

inductive RE : Type
  | fail : RE
  | eps : RE
  | cls : (Char → Bool) → RE
  | alt : RE → RE → RE
  | cat : RE → RE → RE
  | star : RE → RE

def mkAlt : RE → RE → RE
  | RE.fail, s => s
  | r, RE.fail => r
  | r, s => RE.alt r s

def mkCat : RE → RE → RE
  | RE.fail, _ => RE.fail
  | _, RE.fail => RE.fail
  | RE.eps, s => s
  | r, RE.eps => r
  | r, s => RE.cat r s

def nullable : RE → Bool
  | RE.fail => false
  | RE.eps => true
  | RE.cls _ => false
  | RE.alt r s => nullable r || nullable s
  | RE.cat r s => nullable r && nullable s
  | RE.star _ => true

def rderiv : RE → Char → RE
  | RE.fail, _ => RE.fail
  | RE.eps, _ => RE.fail
  | RE.cls p, c => if p c then RE.eps else RE.fail
  | RE.alt r s, c => mkAlt (rderiv r c) (rderiv s c)
  | RE.cat r s, c =>
      if nullable r then mkAlt (mkCat (rderiv r c) s) (rderiv s c)
      else mkCat (rderiv r c) s
  | RE.star r, c => mkCat (rderiv r c) (RE.star r)

-- `matchPfx r l` : the regex matches some prefix of `l`.
def matchPfx : RE → List Char → Bool
  | r, [] => nullable r
  | r, c :: cs => nullable r || matchPfx (rderiv r c) cs

-- `searchFrom r l` : the regex matches starting at some position of `l`.
def searchFrom : RE → List Char → Bool
  | r, [] => nullable r
  | r, c :: cs => matchPfx r (c :: cs) || searchFrom r cs

-- Model of Python `re.search(pattern, code)` truthiness.
def reSearch (r : RE) (s : String) : Bool :=
  searchFrom r s.data

-- ### Pattern building blocks

def chc (c : Char) : RE := RE.cls (fun d => d == c)

def lit (s : String) : RE :=
  s.data.foldr (fun c r => RE.cat (chc c) r) RE.eps

def pcat (l : List RE) : RE := l.foldr RE.cat RE.eps

def many (r : RE) : RE := RE.star r

def many1 (r : RE) : RE := RE.cat r (RE.star r)

def opt (r : RE) : RE := RE.alt RE.eps r

-- Python `\s` (str patterns): Unicode whitespace.
def wsChar (c : Char) : Bool :=
  c == ' ' || c == '\t' || c == '\n' || c == '\r' || c == '\x0b' || c == '\x0c' ||
  (0x1c ≤ c.toNat && c.toNat ≤ 0x1f) || c.toNat == 0x85 || c.toNat == 0xa0 ||
  c.toNat == 0x1680 || (0x2000 ≤ c.toNat && c.toNat ≤ 0x200a) ||
  c.toNat == 0x2028 || c.toNat == 0x2029 || c.toNat == 0x202f ||
  c.toNat == 0x205f || c.toNat == 0x3000

def ws : RE := RE.cls wsChar

-- Python `.` without DOTALL: any character except a newline.
def dotAny : RE := RE.cls (fun c => !(c == '\n'))

-- Class `[a-zA-Z0-9_]` from the source patterns.
def wordChar (c : Char) : Bool := c.isAlphanum || c == '_'

def wordCls : RE := RE.cls wordChar

-- Class matching a single or double quote, written in the source as a class
-- containing the two quote characters.
def quoteCls : RE := RE.cls (fun c => c == Char.ofNat 39 || c == '"')

-- ### The source's pattern lists (main.py lines 40-45 and 67-72).

-- `token_name` is spliced into the pattern strings verbatim by the rf-string;
-- `main` only reaches these calls with identifier-shaped names, which contain
-- no regex metacharacters, so the splice is a literal.
def generationPatterns (token_name : String) : List RE :=
  [ pcat [lit token_name, many ws, chc '=', many ws,
          opt (RE.cat (many1 wordCls) (chc '.')),
          lit "generate", many (chc '_'), lit "token",
          many ws, chc '(', many dotAny, chc ')'],
    pcat [lit token_name, many ws, chc '=', many ws,
          lit "secrets.token_hex", many ws, chc '(', many dotAny, chc ')'],
    pcat [lit token_name, many ws, chc '=', many ws,
          lit "os.urandom", many ws, chc '(', many dotAny, chc ')'],
    pcat [lit token_name, many ws, chc '=', many ws,
          lit "uuid.uuid4", many ws, chc '(', many dotAny, chc ')'] ]

def formOrPOST : RE := RE.alt (lit "form") (lit "POST")

def validationPatterns (token_name form_field : String) : List RE :=
  [ pcat [lit "if", many1 ws, lit "request.", formOrPOST, many ws, chc '[',
          quoteCls, lit form_field, quoteCls, chc ']', many dotAny,
          lit "!=", many ws, lit token_name, many dotAny],
    pcat [lit "if", many1 ws, lit "request.", formOrPOST, lit ".get", many ws,
          chc '(', quoteCls, lit form_field, quoteCls, chc ']', many dotAny,
          lit "!=", many ws, lit token_name, many dotAny],
    pcat [lit "if", many1 ws, lit "session", many ws, chc '[',
          quoteCls, lit token_name, quoteCls, chc ']', many dotAny,
          lit "!=", many ws, lit "request.", formOrPOST, many ws, chc '[',
          quoteCls, lit form_field, quoteCls, chc ']', many dotAny],
    pcat [lit "if", many1 ws, lit "session", many ws, chc '[',
          quoteCls, lit token_name, quoteCls, chc ']', many dotAny,
          lit "!=", many ws, lit "request.", formOrPOST, lit ".get", many ws,
          chc '(', quoteCls, lit form_field, quoteCls, chc ']', many dotAny] ]

-- The for-loop of both predicates: try each pattern in order, return True on
-- the first match, False if the list is exhausted.
def searchFirst : List RE → String → Bool
  | [], _ => false
  | p :: ps, code => if reSearch p code then true else searchFirst ps code

-- main.py lines 28-50.
def is_token_generation_present (code token_name : String) : Bool :=
  searchFirst (generationPatterns token_name) code

-- main.py lines 53-78.
def is_token_validation_present (code token_name form_field : String) : Bool :=
  searchFirst (validationPatterns token_name form_field) code

-- ### posixpath primitives (CPython posixpath.join / posixpath.normpath)

-- Python `str.split(sep)` on a character separator.
def splitChar (sep : Char) : List Char → List (List Char)
  | [] => [[]]
  | c :: cs =>
      let r := splitChar sep cs
      if c == sep then [] :: r
      else
        match r with
        | h :: t => (c :: h) :: t
        | [] => [[c]]

-- Python `sep.join(comps)` with `sep = "/"`.
def joinSlash : List (List Char) → List Char
  | [] => []
  | [x] => x
  | x :: xs => x ++ '/' :: joinSlash xs

def suffixes : List Char → List (List Char)
  | [] => [[]]
  | c :: cs => (c :: cs) :: suffixes cs

-- Python `needle in hay` on strings: substring containment.
def strContains (hay needle : String) : Bool :=
  (suffixes hay.data).any (fun t => needle.data.isPrefixOf t)

-- posixpath.join of two components.
def pjoin (a b : String) : String :=
  if b.data.head? == some '/' then b
  else if a.data == ([] : List Char) || a.data.getLast? == some '/' then
    String.mk (a.data ++ b.data)
  else String.mk (a.data ++ '/' :: b.data)

-- posixpath.normpath, transcribed from CPython.
def normpath (path : String) : String :=
  if path.data == ([] : List Char) then "."
  else
    let slashes : Nat :=
      if path.data.head? == some '/' then
        if path.data.take 2 == ['/', '/'] && !(path.data.take 3 == ['/', '/', '/'])
        then 2 else 1
      else 0
    let comps := splitChar '/' path.data
    let newComps := comps.foldl (fun acc comp =>
      if comp == ([] : List Char) || comp == ['.'] then acc
      else if !(comp == ['.', '.']) ||
              (slashes == 0 && acc == ([] : List (List Char))) ||
              (!(acc == ([] : List (List Char))) && acc.getLast? == some ['.', '.']) then
        acc ++ [comp]
      else if !(acc == ([] : List (List Char))) then acc.dropLast
      else acc) []
    let full := List.replicate slashes '/' ++ joinSlash newComps
    if full == ([] : List Char) then "." else String.mk full

-- Python `file.endswith(".py")`.
def pyExt (name : String) : Bool :=
  ".py".data.isSuffixOf name.data

-- The exclusion check of main.py line 135:
-- any(normpath(join(dir_path, ex)) == normpath(file_path)
--     or normpath(join(dir_path, ex)) in normpath(file_path) for ex in exclude)
def isExcluded (dir_path : String) (exclude : List String) (file_path : String) : Bool :=
  exclude.any (fun ex =>
    (normpath (pjoin dir_path ex)).data == (normpath file_path).data ||
    strContains (normpath file_path) (normpath (pjoin dir_path ex)))

-- ### File analysis and directory traversal

-- main.py lines 81-108; `contents p = none` models any read failure
-- (missing file, decode error, other I/O error), all of which are caught,
-- logged, and turned into `(false, false)`.
def analyze_file (contents : String → Option String)
    (file_path token_name form_field : String) : Bool × Bool :=
  match contents file_path with
  | none => (false, false)
  | some code =>
      (is_token_generation_present code token_name,
       is_token_validation_present code token_name form_field)

-- Body of the double loop of main.py lines 129-141, one candidate
-- `(root, file)` entry at a time.
def dirStep (contents : String → Option String)
    (dir_path token_name form_field : String) (exclude : List String)
    (acc : Bool × Bool) (e : String × String) : Bool × Bool :=
  if pyExt e.2 then
    let file_path := pjoin e.1 e.2
    if isExcluded dir_path exclude file_path then acc
    else
      let r := analyze_file contents file_path token_name form_field
      (acc.1 || r.1, acc.2 || r.2)
  else acc

-- main.py lines 111-143; `walk` is the flattened `(root, file)` stream that
-- `os.walk(dir_path)` yields (directory names are unused by the source).
def analyze_directory (contents : String → Option String) (dir_path : String)
    (walk : List (String × String)) (token_name form_field : String)
    (exclude : List String) : Bool × Bool :=
  walk.foldl (dirStep contents dir_path token_name form_field exclude) (false, false)

-- The candidate files that survive the extension filter and the exclusion
-- check, i.e. the ones the loop actually analyzes.
def scannedFiles (dir_path : String) (exclude : List String)
    (walk : List (String × String)) : List String :=
  (walk.filter (fun e => pyExt e.2 && !(isExcluded dir_path exclude (pjoin e.1 e.2)))).map
    (fun e => pjoin e.1 e.2)

-- ### main(): argument validation and dispatch

-- A string matching `[a-zA-Z_][a-zA-Z0-9_]*` exactly.
def isIdentShaped (s : String) : Bool :=
  match s.data with
  | [] => false
  | c :: cs => (c.isAlpha || c == '_') && cs.all (fun d => d.isAlphanum || d == '_')

-- Truthiness of `re.match(r"^[a-zA-Z_][a-zA-Z0-9_]*$", s)` (main.py line 159).
-- Python's `$` also matches just before a single newline at the end of the
-- string, so a trailing newline is accepted.
def validName (s : String) : Bool :=
  isIdentShaped s ||
  (s.data.getLast? == some '\n' && isIdentShaped (String.mk s.data.dropLast))

-- Abstract file system seen by main(): isfile/isdir answers, the flattened
-- os.walk stream per directory, and per-path read results.
structure FS where
  isFile : String → Bool
  isDir : String → Bool
  walk : String → List (String × String)
  contents : String → Option String

-- Observable outcome of a run of main(): the process exit code, whether the
-- run reached the scanning phase (any file I/O), and the two final flags.
structure RunResult where
  exitCode : Nat
  scanned : Bool
  generation_found : Bool
  validation_found : Bool
deriving DecidableEq

-- main.py lines 146-179.  sys.exit(1) is modelled by exit code 1 with
-- `scanned := false` (it is raised before any file I/O); falling off the end
-- of main() is exit code 0.
def runMain (path token_name form_field : String) (exclude : List String)
    (fs : FS) : RunResult :=
  if !(validName token_name) || !(validName form_field) then
    ⟨1, false, false, false⟩
  else if fs.isFile path then
    let r := analyze_file fs.contents path token_name form_field
    ⟨0, true, r.1, r.2⟩
  else if fs.isDir path then
    let r := analyze_directory fs.contents path (fs.walk path)
               token_name form_field exclude
    ⟨0, true, r.1, r.2⟩
  else ⟨1, false, false, false⟩

-- ### Concrete artifacts used by closed theorems

def genText : String := "csrf_token = secrets.token_hex(16)\n"

def valText : String := "if request.form[\"csrf_token\"] != csrf_token:\n    pass\n"

-- The `.get(...)` call shape that the source's own comment (main.py line 66)
-- says the validation patterns are meant to catch.
def getText : String := "if request.form.get(\"csrf_token\") != csrf_token:\n    pass\n"

def demoContents : String → Option String := fun p =>
  if p == "proj/gen.py" then some genText
  else if p == "proj/val.py" then some valText
  else none

def c3Contents : String → Option String := fun p =>
  if p == "app/src/test_util.py" then some genText else none

def fsSingle : FS :=
  { isFile := fun _ => true
    isDir := fun _ => false
    walk := fun _ => []
    contents := fun _ => some "" }

-- ### Helper lemmas

-- The early-return loop of both predicates is the disjunction of its
-- pattern matches.
lemma searchFirst_eq_any (ps : List RE) (code : String) :
    searchFirst ps code = ps.any (fun p => reSearch p code) := by
  induction ps with
  | nil => rfl
  | cons p ps ih =>
      cases h : reSearch p code <;> simp [searchFirst, h, ih]

lemma foldl_dirStep (contents : String → Option String) (dir t f : String)
    (ex : List String) :
    ∀ (walk : List (String × String)) (a b : Bool),
      walk.foldl (dirStep contents dir t f ex) (a, b) =
        (a || (scannedFiles dir ex walk).any (fun p => (analyze_file contents p t f).1),
         b || (scannedFiles dir ex walk).any (fun p => (analyze_file contents p t f).2)) := by
  intro walk
  induction walk with
  | nil => intro a b; simp [scannedFiles]
  | cons e walk ih =>
      intro a b
      cases hp : pyExt e.2 with
      | false =>
          simp [dirStep, hp, ih, scannedFiles, List.filter_cons]
      | true =>
          cases hx : isExcluded dir ex (pjoin e.1 e.2) with
          | true =>
              simp [dirStep, hp, hx, ih, scannedFiles, List.filter_cons]
          | false =>
              simp [dirStep, hp, hx, ih, scannedFiles, List.filter_cons,
                    Bool.or_assoc]

-- The loop of `analyze_directory` ORs the `analyze_file` results of exactly
-- the surviving candidate files.
lemma analyze_directory_eq_any (contents : String → Option String)
    (dir t f : String) (ex : List String) (walk : List (String × String)) :
    analyze_directory contents dir walk t f ex =
      ((scannedFiles dir ex walk).any (fun p => (analyze_file contents p t f).1),
       (scannedFiles dir ex walk).any (fun p => (analyze_file contents p t f).2)) := by
  unfold analyze_directory
  rw [foldl_dirStep]
  simp

lemma scannedFiles_cons_exclude_subset {dir e : String} {ex : List String}
    {walk : List (String × String)} {x : String}
    (h : x ∈ scannedFiles dir (e :: ex) walk) : x ∈ scannedFiles dir ex walk := by
  unfold scannedFiles at h ⊢
  rcases List.mem_map.mp h with ⟨el, hel, rfl⟩
  rcases List.mem_filter.mp hel with ⟨hmem, hcond⟩
  refine List.mem_map.mpr ⟨el, List.mem_filter.mpr ⟨hmem, ?_⟩, rfl⟩
  simp only [isExcluded, List.any_cons, Bool.and_eq_true, Bool.not_eq_true',
    Bool.or_eq_false_iff] at hcond ⊢
  exact ⟨hcond.1, hcond.2.2⟩

-- ### Claim theorems

/-- C1: for every directory scan, `analyze_directory` returns, in each of the
two dimensions (generation, validation) independently, the logical OR of the
per-file results of `analyze_file` over all scanned (non-excluded, `.py`)
files; in particular, for a directory containing one file matching only a
generation idiom and a separate file matching only a validation idiom, the
aggregate result is `(true, true)`. -/
theorem analyze_directory_or_aggregate :
    (∀ (contents : String → Option String) (dir t f : String)
       (walk : List (String × String)) (ex : List String),
       analyze_directory contents dir walk t f ex =
         ((scannedFiles dir ex walk).any (fun p => (analyze_file contents p t f).1),
          (scannedFiles dir ex walk).any (fun p => (analyze_file contents p t f).2)))
    ∧ analyze_file demoContents "proj/gen.py" "csrf_token" "csrf_token" = (true, false)
    ∧ analyze_file demoContents "proj/val.py" "csrf_token" "csrf_token" = (false, true)
    ∧ analyze_directory demoContents "proj" [("proj", "gen.py"), ("proj", "val.py")]
        "csrf_token" "csrf_token" [] = (true, true) := by
  refine ⟨?_, by decide, by decide, by decide⟩
  intro contents dir t f walk ex
  exact analyze_directory_eq_any contents dir t f ex walk

/-- C2: each pattern predicate tries its fixed list of regular expressions in
order and returns `true` exactly when some pattern matches somewhere in the
whole file text (`reSearch` models `re.search` on the whole text,
case-sensitively), and `false` exactly when none of its patterns matches. -/
theorem pattern_predicates_first_match :
    ∀ (code t f : String),
      (is_token_generation_present code t = true ↔
        ∃ p ∈ generationPatterns t, reSearch p code = true) ∧
      (is_token_validation_present code t f = true ↔
        ∃ p ∈ validationPatterns t f, reSearch p code = true) := by
  intro code t f
  constructor
  · rw [is_token_generation_present, searchFirst_eq_any, List.any_eq_true]
  · rw [is_token_validation_present, searchFirst_eq_any, List.any_eq_true]

/-- C3 (counterexample): the normalized path `"app/src/test_util.py"` contains
the normalized exclusion entry `"test"` as a substring, yet with scan root
`"app"` the file is not skipped: the exclusion check joins the entry onto the
scan root first, so the claim's "regardless of the scan root directory" fails,
and the file's generation idiom still reaches the aggregate. -/
theorem exclusion_substring_counterexample :
    strContains (normpath (pjoin "app/src" "test_util.py")) (normpath "test") = true ∧
    isExcluded "app" ["test"] (pjoin "app/src" "test_util.py") = false ∧
    analyze_directory c3Contents "app" [("app/src", "test_util.py")]
      "csrf_token" "csrf_token" ["test"] = (true, false) := by
  refine ⟨by decide, by decide, by decide⟩

/-- C3 (amended): during a directory scan a candidate file is skipped if and
only if, for some exclusion entry, the normalized join of the scan root and
that entry equals, or is contained as a substring in, the file's normalized
path; a relative fragment such as `"test"` therefore only excludes files
whose path contains the root-prefixed `"<root>/test"`, not every path
containing `"test"`. -/
theorem exclusion_join_characterization :
    ∀ (dir_path : String) (exclude : List String) (file_path : String),
      isExcluded dir_path exclude file_path = true ↔
        ∃ ex ∈ exclude,
          normpath (pjoin dir_path ex) = normpath file_path ∨
          strContains (normpath file_path) (normpath (pjoin dir_path ex)) = true := by
  intro dp ex fp
  rw [isExcluded, List.any_eq_true]
  constructor
  · rintro ⟨e, he, hcond⟩
    simp only [Bool.or_eq_true, beq_iff_eq] at hcond
    rcases hcond with h | h
    · exact ⟨e, he, Or.inl (String.ext h)⟩
    · exact ⟨e, he, Or.inr h⟩
  · rintro ⟨e, he, h | h⟩
    · exact ⟨e, he, by simp [h]⟩
    · exact ⟨e, he, by simp [h]⟩

/-- C4 (code bug): the run does not always abort on a non-identifier name.
`"abc\n"` is not identifier-shaped (a letter or underscore followed by
alphanumerics/underscores), but `re.match (with a trailing dollar anchor)`
accepts a single trailing newline, so `main` scans the path and exits with
code 0 instead of aborting with code 1 before any file I/O. -/
theorem token_name_trailing_newline_accepted :
    isIdentShaped "abc\n" = false ∧
    validName "abc\n" = true ∧
    runMain "app.py" "abc\n" "csrf_token" [] fsSingle =
      ⟨0, true, false, false⟩ := by
  refine ⟨by decide, by decide, by decide⟩

/-- C5: the run exits with code 0 exactly when the names pass the program's
identifier validation and the source path is an existing file or directory
(independently of whether any pattern was found), and with code 1 exactly
when the validation fails or the path is neither a file nor a directory. -/
theorem exit_code_characterization :
    ∀ (path t f : String) (ex : List String) (fs : FS),
      ((runMain path t f ex fs).exitCode = 0 ↔
        (validName t && validName f) = true ∧
        (fs.isFile path || fs.isDir path) = true) ∧
      ((runMain path t f ex fs).exitCode = 1 ↔
        (validName t && validName f) = false ∨
        (fs.isFile path = false ∧ fs.isDir path = false)) := by
  intro path t f ex fs
  cases hvt : validName t <;> cases hvf : validName f <;>
    cases hf : fs.isFile path <;> cases hd : fs.isDir path <;>
      simp [runMain, hvt, hvf, hf, hd]

/-- C6: a file whose read fails contributes `(false, false)` from
`analyze_file`, and removing such an entry from the walk does not change the
result of `analyze_directory`: the failure neither adds matches nor stops the
traversal of the remaining entries. -/
theorem read_failure_no_contribution :
    ∀ (contents : String → Option String) (r fl dir t f : String)
      (ex : List String) (ws₁ ws₂ : List (String × String)),
      contents (pjoin r fl) = none →
      analyze_file contents (pjoin r fl) t f = (false, false) ∧
      analyze_directory contents dir (ws₁ ++ (r, fl) :: ws₂) t f ex =
        analyze_directory contents dir (ws₁ ++ ws₂) t f ex := by
  intro contents r fl dir t f ex ws₁ ws₂ h
  have hfile : analyze_file contents (pjoin r fl) t f = (false, false) := by
    rw [analyze_file, h]
  refine ⟨hfile, ?_⟩
  have h1 : (analyze_file contents (pjoin r fl) t f).1 = false := by rw [hfile]
  have h2 : (analyze_file contents (pjoin r fl) t f).2 = false := by rw [hfile]
  rw [analyze_directory_eq_any, analyze_directory_eq_any]
  cases hc : (pyExt fl && !(isExcluded dir ex (pjoin r fl))) <;>
    simp [scannedFiles, List.filter_append, List.filter_cons, hc, h1, h2]

theorem read_failure_no_contribution_witness :
    analyze_file (fun _ => none) (pjoin "d" "a.py") "tok" "tok" = (false, false) ∧
    analyze_directory (fun _ => none) "d" ([] ++ ("d", "a.py") :: [("d", "b.py")])
      "tok" "tok" [] =
      analyze_directory (fun _ => none) "d" ([] ++ [("d", "b.py")]) "tok" "tok" [] :=
  read_failure_no_contribution (fun _ => none) "d" "a.py" "d" "tok" "tok" []
    [] [("d", "b.py")] rfl

/-- C7 (code bug): the validation patterns are meant to cover both the
subscript shape and the `.get(...)` call shape (the source's own comment
shows `request.POST.get('csrf_token') != ...`), but the call-shape patterns
require a literal `]` right after the quoted field name where the call shape
has `)`, so a file containing only the call shape yields validation = false;
the subscript shape does match. -/
theorem validation_get_shape_bug :
    is_token_validation_present valText "csrf_token" "csrf_token" = true ∧
    is_token_validation_present getText "csrf_token" "csrf_token" = false ∧
    analyze_file (fun _ => some getText) "app/views.py" "csrf_token" "csrf_token" =
      (false, false) := by
  refine ⟨by decide, by decide, by decide⟩

/-- C8: a directory whose walk yields no `.py` file (in particular an empty
directory) produces the aggregate `(false, false)`. -/
theorem no_python_files_scan_false :
    ∀ (contents : String → Option String) (dir t f : String)
      (ex : List String) (walk : List (String × String)),
      (∀ e ∈ walk, pyExt e.2 = false) →
      analyze_directory contents dir walk t f ex = (false, false) := by
  intro contents dir t f ex walk h
  rw [analyze_directory_eq_any]
  have hnil : scannedFiles dir ex walk = [] := by
    unfold scannedFiles
    have main : ∀ (w : List (String × String)), (∀ e ∈ w, pyExt e.2 = false) →
        w.filter (fun e => pyExt e.2 && !(isExcluded dir ex (pjoin e.1 e.2))) = [] := by
      intro w
      induction w with
      | nil => intro _; rfl
      | cons e w ih =>
          intro hw
          have he := hw e (List.mem_cons_self e w)
          have hcond : (pyExt e.2 && !(isExcluded dir ex (pjoin e.1 e.2))) = false := by
            rw [he]
            exact Bool.false_and _
          rw [List.filter_cons, hcond, if_neg Bool.false_ne_true]
          exact ih (fun x hx => hw x (List.mem_cons_of_mem e hx))
    rw [main walk h]
    rfl
  rw [hnil]
  rfl

theorem no_python_files_scan_false_witness :
    analyze_directory (fun _ => some "") "r"
      [("r", "README.md"), ("r", "notes.txt")] "csrf_token" "csrf_token" [] =
      (false, false) :=
  no_python_files_scan_false (fun _ => some "") "r" "csrf_token" "csrf_token" []
    [("r", "README.md"), ("r", "notes.txt")] (by decide)

/-- C9: when the source path is an existing file (checked before the
directory case), `main` hands it straight to `analyze_file`, whatever its
extension, and the run's outcome does not depend on the exclusion list: the
`.py` filter and the exclusion check live only in `analyze_directory`. -/
theorem single_file_ignores_extension_and_exclude :
    ∀ (path t f : String) (ex ex2 : List String) (fs : FS),
      fs.isFile path = true → validName t = true → validName f = true →
      runMain path t f ex fs =
        ⟨0, true, (analyze_file fs.contents path t f).1,
         (analyze_file fs.contents path t f).2⟩ ∧
      runMain path t f ex fs = runMain path t f ex2 fs := by
  intro path t f ex ex2 fs hf hvt hvf
  constructor <;> simp [runMain, hvt, hvf, hf]

theorem single_file_ignores_extension_and_exclude_witness :
    runMain "page.html" "csrf_token" "csrf_token" ["page.html"] fsSingle =
      ⟨0, true,
       (analyze_file fsSingle.contents "page.html" "csrf_token" "csrf_token").1,
       (analyze_file fsSingle.contents "page.html" "csrf_token" "csrf_token").2⟩ ∧
    runMain "page.html" "csrf_token" "csrf_token" ["page.html"] fsSingle =
      runMain "page.html" "csrf_token" "csrf_token" [] fsSingle :=
  single_file_ignores_extension_and_exclude "page.html" "csrf_token" "csrf_token"
    ["page.html"] [] fsSingle rfl (by decide) (by decide)

/-- C10: the aggregate of `analyze_directory` is pointwise monotone
non-increasing in the exclusion list: adding an entry can only keep each
flag or turn it from `true` to `false`, never from `false` to `true`. -/
theorem exclusion_monotone :
    ∀ (contents : String → Option String) (dir t f e : String)
      (ex : List String) (walk : List (String × String)),
      (analyze_directory contents dir walk t f (e :: ex)).1 ≤
        (analyze_directory contents dir walk t f ex).1 ∧
      (analyze_directory contents dir walk t f (e :: ex)).2 ≤
        (analyze_directory contents dir walk t f ex).2 := by
  intro contents dir t f e ex walk
  rw [analyze_directory_eq_any, analyze_directory_eq_any]
  have key : ∀ (g : String → Bool),
      (scannedFiles dir (e :: ex) walk).any g ≤ (scannedFiles dir ex walk).any g := by
    intro g
    cases h : (scannedFiles dir (e :: ex) walk).any g
    · exact Bool.false_le _
    · rcases List.any_eq_true.mp h with ⟨x, hx, hgx⟩
      have : (scannedFiles dir ex walk).any g = true :=
        List.any_eq_true.mpr ⟨x, scannedFiles_cons_exclude_subset hx, hgx⟩
      rw [this]
  exact ⟨key _, key _⟩
